import Mathlib

/-!
Verification of the RoomDesigner heatmap placement engine
(`kitchen_core/heatmaps/`: `grid.py`, `masking.py`, `layers.py`,
`fields.py`, `solver.py`).

The engine is embedded shallowly:

* NumPy float arrays of length `room_width` become functions `ℕ → ℚ`
  paired with their width (`GridMap`); float arithmetic is modelled by
  rational arithmetic.
* `np.exp` is kept abstract: every definition that injects a Gaussian
  takes a parameter `gexp : ℚ → ℚ` standing for `fun x => Real.exp x`;
  theorems hold for every `gexp`, and concrete witnesses instantiate it.
* `np.argmax` (first index attaining the maximum) is modelled by
  `indexOf` of the list maximum; Python's stable `list.sort` is modelled
  by a stable insertion sort (`sortStable`).
* The Legacy `geometry.Room` dataclass is not present under the sources;
  it is a plain data record consumed by the engine and is modelled from
  the spec (section 6).
-/

/-- Sum of `f p + f (p+1) + ... + f (p+n-1)` — the value of one
width-`n` window of the sliding-window convolution
(`np.convolve(data, np.ones(n), mode='valid')[p]`). -/
def windowSum (f : ℕ → ℚ) : ℕ → ℕ → ℚ
  | _, 0 => 0
  | p, n + 1 => f p + windowSum f (p + 1) n

/-- Sum of `hard[p:p+n]` for the integer hard-collision mask
(`np.sum(self.hard_mask[start:end])`). -/
def natWindowSum (f : ℕ → ℕ) : ℕ → ℕ → ℕ
  | _, 0 => 0
  | p, n + 1 => f p + natWindowSum f (p + 1) n

/-- Maximum of a list of rationals (`np.max` on a nonempty array;
`0` on the empty array, which NumPy rejects). -/
def listMax : List ℚ → ℚ
  | [] => 0
  | [x] => x
  | x :: y :: tl => max x (listMax (y :: tl))

/-- First index attaining the maximum — the semantics of `np.argmax`. -/
def argmaxFirst (l : List ℚ) : ℕ := l.indexOf (listMax l)

/-- Ordered insertion used by the stable sort. -/
def insertOrd {α : Type} (le : α → α → Bool) (x : α) : List α → List α
  | [] => [x]
  | y :: ys => if le x y then x :: y :: ys else y :: insertOrd le x ys

/-- Stable insertion sort: elements equivalent under `le` keep their
original relative order, as Python's `list.sort` guarantees. -/
def sortStable {α : Type} (le : α → α → Bool) : List α → List α
  | [] => []
  | x :: xs => insertOrd le x (sortStable le xs)

/-- `GridMap` from `grid.py`: a 1 cm resolution scalar field over the
room width.  The NumPy array `data` is modelled as the valuation
`val : ℕ → ℚ` (only indices `< room_width` are ever read). -/
structure GridMap where
  room_width : ℕ
  val : ℕ → ℚ

/-- `GridMap.create`: constant field of a given value. -/
def GridMap.create (room_width : ℕ) (initial_value : ℚ) : GridMap :=
  ⟨room_width, fun _ => initial_value⟩

/-- `GridMap.zeros`. -/
def GridMap.zeros (room_width : ℕ) : GridMap := GridMap.create room_width 0

/-- `GridMap.ones`. -/
def GridMap.ones (room_width : ℕ) (value : ℚ) : GridMap := GridMap.create room_width value

/-- `GridMap.copy`: in the pure embedding a deep copy is the value itself. -/
def GridMap.copy (g : GridMap) : GridMap := g

/-- `GridMap.gaussian_field`: `amplitude * exp(-0.5*((i-center)/sigma)^2)`,
with `exp` abstracted by `gexp`. -/
def GridMap.gaussian_field (gexp : ℚ → ℚ) (g : GridMap) (center_cm : ℤ)
    (sigma_cm amplitude : ℚ) : ℕ → ℚ :=
  fun i => amplitude * gexp (-(1 / 2) * (((i : ℚ) - (center_cm : ℚ)) / sigma_cm) ^ 2)

/-- `GridMap.add_gaussian`: pointwise addition of a Gaussian bell. -/
def GridMap.add_gaussian (gexp : ℚ → ℚ) (g : GridMap) (center_cm : ℤ)
    (sigma_cm amplitude : ℚ) : GridMap :=
  ⟨g.room_width, fun i => g.val i + g.gaussian_field gexp center_cm sigma_cm amplitude i⟩

/-- `GridMap.apply_penalty_range`: adds `value` on `[start, end)` clamped
to `[0, room_width)`; an empty (or inverted) range changes nothing,
like an empty NumPy slice. -/
def GridMap.apply_penalty_range (g : GridMap) (start_cm end_cm : ℤ) (value : ℚ) : GridMap :=
  ⟨g.room_width, fun i =>
    if max 0 start_cm ≤ (i : ℤ) ∧ (i : ℤ) < min (g.room_width : ℤ) end_cm then
      g.val i + value
    else g.val i⟩

/-- `GridMap.apply_mask`: cells where the binary mask is positive are
replaced by `penalty` (`np.where(mask > 0, penalty, data)`). -/
def GridMap.apply_mask (g : GridMap) (mask : ℕ → ℕ) (penalty : ℚ) : GridMap :=
  ⟨g.room_width, fun i => if mask i > 0 then penalty else g.val i⟩

/-- The `mode='valid'` convolution of the field with a width-`w` kernel of
ones: entry `p` is `sum(data[p:p+w])`, for `p < room_width - w + 1`. -/
def GridMap.scores (g : GridMap) (item_width : ℕ) : List ℚ :=
  (List.range (g.room_width - item_width + 1)).map (fun p => windowSum g.val p item_width)

/-- `GridMap.find_best_position`: arg-max of the sliding-window sums;
`0` when the item is at least as wide as the room. -/
def GridMap.find_best_position (g : GridMap) (item_width : ℕ) : ℕ :=
  if item_width ≥ g.room_width then 0
  else argmaxFirst (g.scores item_width)

/-- `GridMap.find_top_k_positions`: the `(position, score)` pairs sorted
by score descending, truncated to `k`; ties keep ascending position
order (the source's tie order via `np.argsort`/`np.argpartition` is
implementation-defined, so a deterministic rule is fixed here). -/
def GridMap.find_top_k_positions (g : GridMap) (item_width k : ℕ) : List (ℕ × ℚ) :=
  if item_width ≥ g.room_width then [(0, windowSum g.val 0 g.room_width)]
  else
    (sortStable (fun a b : ℕ × ℚ => b.2 ≤ a.2)
      ((List.range (g.room_width - item_width + 1)).map
        (fun p => (p, windowSum g.val p item_width)))).take k

/-- `CollisionMask` from `masking.py`: binary hard occupancy plus an
accumulating soft penalty field. -/
structure CollisionMask where
  room_width : ℕ
  hard_mask : ℕ → ℕ
  soft_mask : ℕ → ℚ

/-- `CollisionMask.create`: empty mask. -/
def CollisionMask.create (room_width : ℕ) : CollisionMask :=
  ⟨room_width, fun _ => 0, fun _ => 0⟩

/-- `CollisionMask.copy`. -/
def CollisionMask.copy (m : CollisionMask) : CollisionMask := m

/-- `CollisionMask.mark_occupied`: hard-blocks the clamped `[start, end)`
and, when `include_door_swing`, adds `door_swing_penalty` to the soft
mask over the swing-extended clamped range. -/
def CollisionMask.mark_occupied (m : CollisionMask) (start_cm end_cm : ℤ)
    (include_door_swing : Bool) (door_swing_cm : ℤ) (door_swing_penalty : ℚ) :
    CollisionMask :=
  ⟨m.room_width,
    fun i =>
      if max 0 start_cm ≤ (i : ℤ) ∧ (i : ℤ) < min (m.room_width : ℤ) end_cm then 1
      else m.hard_mask i,
    fun i =>
      if include_door_swing ∧
          max 0 (max 0 start_cm - door_swing_cm) ≤ (i : ℤ) ∧
          (i : ℤ) < min (m.room_width : ℤ) (min (m.room_width : ℤ) end_cm + door_swing_cm) then
        m.soft_mask i + door_swing_penalty
      else m.soft_mask i⟩

/-- `CollisionMask.is_valid_placement`: in bounds and no hard-blocked cell
inside `[start, start+width)`.  Call sites pass non-negative starts, so
the start is a natural number here. -/
def CollisionMask.is_valid_placement (m : CollisionMask) (start_cm width : ℕ) : Bool :=
  decide (start_cm + width ≤ m.room_width) &&
    decide (natWindowSum m.hard_mask start_cm width = 0)

/-- `CollisionMask.get_blocking_mask`. -/
def CollisionMask.get_blocking_mask (m : CollisionMask) : ℕ → ℕ := m.hard_mask

/-- One utility point of the room (`{'type': ..., 'x': ...}`); only the
fields the engine reads are kept. -/
structure Utility where
  utype : String
  x : ℤ

/-- One door or window (`{'wall': ..., 'x': ..., 'width': ...}`). -/
structure Opening where
  wall : String
  x : ℤ
  width : ℤ

/-- Modelled from the spec: the Legacy `geometry.Room` dataclass is not
among the sources (only its consumers are).  Per spec section 6 the
engine reads `width, length, height` (cm, integers), `utilities`,
`windows`/`doors` and, for L-shapes, `wall_b_length`. -/
structure Room where
  width : ℕ
  length : ℤ
  height : ℤ
  utilities : List Utility
  windows : List Opening
  doors : List Opening
  wall_b_length : Option ℤ := none

/-- `create_architecture_layer` (`layers.py`): baseline `+100`, `-1100`
under back-wall door spans, `-500` under back-wall window spans. -/
def create_architecture_layer (room : Room) : GridMap :=
  let grid := GridMap.ones room.width 100
  let grid := room.doors.foldl
    (fun g door =>
      if door.wall = "back" then g.apply_penalty_range door.x (door.x + door.width) (-1100)
      else g) grid
  room.windows.foldl
    (fun g window =>
      if window.wall = "back" then g.apply_penalty_range window.x (window.x + window.width) (-500)
      else g) grid

/-- `create_installation_layer`: Gaussian bonus (`sigma=50`,
`amplitude=100`) at each utility of the requested type; if the resulting
data has maximum `0` (in particular when no such utility exists), a flat
`50` field is returned instead. -/
def create_installation_layer (gexp : ℚ → ℚ) (room : Room) (utility_type : String) : GridMap :=
  let grid := room.utilities.foldl
    (fun g util =>
      if util.utype = utility_type then g.add_gaussian gexp util.x 50 100 else g)
    (GridMap.zeros room.width)
  if listMax ((List.range room.width).map grid.val) = 0 then GridMap.ones room.width 50
  else grid

/-- `create_ergonomics_layer`: for monolith types a `+80` bonus over the
first and last 120 cm and a `-30`-amplitude Gaussian dip at room center;
otherwise a `+50`-amplitude Gaussian bump at room center and `-50` over
the outer 30 cm. -/
def create_ergonomics_layer (gexp : ℚ → ℚ) (room : Room) (item_type : String) : GridMap :=
  let center : ℤ := room.width / 2
  if item_type = "fridge" ∨ item_type = "pantry" ∨ item_type = "oven_tower" then
    (((GridMap.zeros room.width).apply_penalty_range 0 120 80).apply_penalty_range
        ((room.width : ℤ) - 120) room.width 80).add_gaussian gexp center 100 (-30)
  else
    (((GridMap.zeros room.width).add_gaussian gexp center 150 50).apply_penalty_range
        0 30 (-50)).apply_penalty_range ((room.width : ℤ) - 30) room.width (-50)

/-- `create_traffic_layer`: `-200` on `±60` cm around each door-derived
traffic point (back-wall door centers; `width-50` for right-wall doors;
`50` for left-wall doors). -/
def create_traffic_layer (room : Room) : GridMap :=
  let door_positions := room.doors.filterMap (fun door =>
    if door.wall = "back" then some (door.x + door.width / 2)
    else if door.wall = "right" then some ((room.width : ℤ) - 50)
    else if door.wall = "left" then some 50
    else none)
  door_positions.foldl
    (fun g door_x => g.apply_penalty_range (door_x - 60) (door_x + 60) (-200))
    (GridMap.zeros room.width)

/-- `create_light_layer`: Gaussian bonus (`sigma=100`, `amplitude=80`) at
each back-wall window midpoint. -/
def create_light_layer (gexp : ℚ → ℚ) (room : Room) : GridMap :=
  room.windows.foldl
    (fun g window =>
      if window.wall = "back" then
        g.add_gaussian gexp (window.x + window.width / 2) 100 80
      else g)
    (GridMap.zeros room.width)

/-- `LAYER_WEIGHTS` (`layers.py`): insertion-ordered weight table per
item type. -/
def LAYER_WEIGHTS (item_type : String) : Option (List (String × ℚ)) :=
  if item_type = "sink_cabinet" then
    some [("architecture", 1), ("installation_water", 1), ("ergonomics", mkRat 1 2),
          ("traffic", mkRat 3 10), ("light", mkRat 8 10)]
  else if item_type = "stove_cabinet" then
    some [("architecture", 1), ("installation_gas", mkRat 8 10), ("ergonomics", mkRat 6 10),
          ("traffic", mkRat 4 10), ("light", mkRat 2 10)]
  else if item_type = "fridge" then
    some [("architecture", 1), ("installation_water", 0), ("ergonomics", mkRat 8 10),
          ("traffic", mkRat 3 10), ("light", 0)]
  else if item_type = "dishwasher" then
    some [("architecture", 1), ("installation_water", mkRat 9 10), ("ergonomics", mkRat 4 10),
          ("traffic", mkRat 1 2), ("light", 0)]
  else if item_type = "pantry" then
    some [("architecture", 1), ("installation_water", 0), ("ergonomics", mkRat 7 10),
          ("traffic", mkRat 2 10), ("light", 0)]
  else none

/-- `get_layer_weights`: table lookup with fallback to the default set. -/
def get_layer_weights (item_type : String) : List (String × ℚ) :=
  (LAYER_WEIGHTS item_type).getD
    [("architecture", 1), ("installation_water", mkRat 3 10), ("ergonomics", mkRat 1 2),
     ("traffic", mkRat 3 10), ("light", mkRat 3 10)]

/-- `ATTRACTIONS` (`fields.py`): `(source, target) ↦ (sigma_cm, amplitude)`. -/
def ATTRACTIONS (source target : String) : Option (ℚ × ℚ) :=
  if (source = "sink_cabinet" ∨ source = "sink") ∧ target = "dishwasher" then some (60, 150)
  else if (source = "stove_cabinet" ∨ source = "stove") ∧ target = "hood" then some (30, 200)
  else if source = "sink_cabinet" ∧ (target = "drawer_cabinet" ∨ target = "prep") then some (80, 50)
  else if source = "stove_cabinet" ∧ target = "oven_tower" then some (100, 40)
  else none

/-- `REPULSIONS` (`fields.py`): `(source, target) ↦ (sigma_cm, amplitude)`
with negative amplitudes. -/
def REPULSIONS (source target : String) : Option (ℚ × ℚ) :=
  if (source = "stove_cabinet" ∨ source = "stove") ∧ target = "fridge" then some (80, -100)
  else if (source = "stove_cabinet" ∨ source = "stove") ∧ target = "window" then some (50, -300)
  else if source = "fridge" ∧ (target = "stove_cabinet" ∨ target = "stove") then some (80, -100)
  else if source = "fridge" ∧ (target = "pantry" ∨ target = "oven_tower") then some (60, -30)
  else none

/-- `FieldEmitter`: a committed placement broadcasting influence. -/
structure FieldEmitter where
  position : ℕ
  width : ℕ
  item_type : String

/-- `FieldEmitter.center`: `position + width // 2`. -/
def FieldEmitter.center (e : FieldEmitter) : ℕ := e.position + e.width / 2

/-- `FieldEmitter._normalize_type`: alias normalization for table lookups. -/
def FieldEmitter.normalize_type (item_type : String) : String :=
  if item_type = "sink_cabinet" then "sink"
  else if item_type = "stove_cabinet" then "stove"
  else if item_type = "drawer_cabinet" then "prep"
  else if item_type = "base_cabinet" then "prep"
  else item_type

/-- `FieldEmitter.get_attraction_for`: raw key first, normalized key as
fallback; `none` when neither table row exists. -/
def FieldEmitter.get_attraction_for (gexp : ℚ → ℚ) (e : FieldEmitter)
    (target_type : String) (room_width : ℕ) : Option GridMap :=
  match (ATTRACTIONS e.item_type target_type).or
      (ATTRACTIONS (FieldEmitter.normalize_type e.item_type)
        (FieldEmitter.normalize_type target_type)) with
  | none => none
  | some params =>
      some ((GridMap.zeros room_width).add_gaussian gexp e.center params.1 params.2)

/-- `FieldEmitter.get_repulsion_for`. -/
def FieldEmitter.get_repulsion_for (gexp : ℚ → ℚ) (e : FieldEmitter)
    (target_type : String) (room_width : ℕ) : Option GridMap :=
  match (REPULSIONS e.item_type target_type).or
      (REPULSIONS (FieldEmitter.normalize_type e.item_type)
        (FieldEmitter.normalize_type target_type)) with
  | none => none
  | some params =>
      some ((GridMap.zeros room_width).add_gaussian gexp e.center params.1 params.2)

/-- `FieldEmitter.get_combined_field_for`: attraction plus repulsion,
each contributing zero when its table lookup misses. -/
def FieldEmitter.get_combined_field_for (gexp : ℚ → ℚ) (e : FieldEmitter)
    (target_type : String) (room_width : ℕ) : GridMap :=
  let grid := GridMap.zeros room_width
  let grid :=
    match e.get_attraction_for gexp target_type room_width with
    | none => grid
    | some attraction => ⟨grid.room_width, fun i => grid.val i + attraction.val i⟩
  match e.get_repulsion_for gexp target_type room_width with
  | none => grid
  | some repulsion => ⟨grid.room_width, fun i => grid.val i + repulsion.val i⟩

/-- `compute_dynamic_fields`: sums every emitter's combined field into one
aggregate field. -/
def compute_dynamic_fields (gexp : ℚ → ℚ) (placed_emitters : List FieldEmitter)
    (target_type : String) (room_width : ℕ) : GridMap :=
  placed_emitters.foldl
    (fun g emitter =>
      ⟨g.room_width, fun i =>
        g.val i + (emitter.get_combined_field_for gexp target_type room_width).val i⟩)
    (GridMap.zeros room_width)

/-- Membership in `ANCHOR_TYPES` (`solver.py`). -/
def isAnchorType (t : String) : Bool :=
  t = "sink_cabinet" || t = "sink" || t = "stove_cabinet" || t = "stove" ||
    t = "fridge" || t = "pantry" || t = "oven_tower"

/-- Membership in `FILLER_TYPES` (`solver.py`). -/
def isFillerType (t : String) : Bool :=
  t = "drawer_cabinet" || t = "base_cabinet" || t = "prep" || t = "landing" ||
    t = "dishwasher"

/-- A wishlist entry: `{'type': ..., 'width': ...}`; a missing width
defaults to 60 at use sites (`item.get('width', 60)`). -/
structure WishItem where
  wtype : String
  width : Option ℕ := none
  height : Option ℤ := none

/-- `PlacementCandidate` (`solver.py`). -/
structure PlacementCandidate where
  position : ℕ
  score : ℚ
  item_type : String
  width : ℕ

/-- `PartialSolution` (`solver.py`): one branch of the beam. -/
structure PartialSolution where
  placements : List PlacementCandidate
  total_score : ℚ
  collision_mask : CollisionMask
  emitters : List FieldEmitter

/-- `PartialSolution.copy`: deep copy for branching; pure values here. -/
def PartialSolution.copy (s : PartialSolution) : PartialSolution := s

/-- `anchor_priority.index` with the `99` fallback used as the sort key
for anchors. -/
def anchorPriorityKey (t : String) : ℕ :=
  let priority := ["sink_cabinet", "sink", "stove_cabinet", "stove", "fridge",
    "pantry", "oven_tower"]
  if t ∈ priority then priority.indexOf t else 99

/-- `HeatmapSolver` state after `__init__`: the room, the two tunables and
the six precomputed static layers (note: `ergonomics` is built with the
default `item_type='generic'`). -/
structure HeatmapSolver where
  room : Room
  BEAM_WIDTH : ℕ
  CANDIDATES_PER_ITEM : ℕ
  static_layers : String → Option GridMap

/-- `HeatmapSolver.__init__`: precomputes the static layer dictionary. -/
def HeatmapSolver.mk_solver (gexp : ℚ → ℚ) (room : Room)
    (beam_width : ℕ := 50) (candidates_per_item : ℕ := 3) : HeatmapSolver :=
  ⟨room, beam_width, candidates_per_item, fun name =>
    if name = "architecture" then some (create_architecture_layer room)
    else if name = "installation_water" then some (create_installation_layer gexp room "water")
    else if name = "installation_gas" then some (create_installation_layer gexp room "gas")
    else if name = "ergonomics" then some (create_ergonomics_layer gexp room "generic")
    else if name = "traffic" then some (create_traffic_layer room)
    else if name = "light" then some (create_light_layer gexp room)
    else none⟩

/-- The combined candidate-scoring field built inside
`HeatmapSolver._generate_candidates`: architecture copy, weighted static
layers (positive weights only), dynamic fields when emitters exist,
hard-mask replacement by `-10000`, then `soft*100` subtraction. -/
def HeatmapSolver.combined_field (gexp : ℚ → ℚ) (solver : HeatmapSolver)
    (item_type : String) (mask : CollisionMask) (emitters : List FieldEmitter) : GridMap :=
  let weights := get_layer_weights item_type
  let combined := (solver.static_layers "architecture").getD
    (GridMap.zeros solver.room.width)
  let combined := combined.copy
  let combined := weights.foldl
    (fun g nw =>
      match solver.static_layers nw.1 with
      | some layer => if nw.2 > 0 then ⟨g.room_width, fun i => g.val i + layer.val i * nw.2⟩
        else g
      | none => g) combined
  let combined :=
    if emitters.isEmpty then combined
    else
      let dynamic := compute_dynamic_fields gexp emitters item_type solver.room.width
      ⟨combined.room_width, fun i => combined.val i + dynamic.val i⟩
  let combined := combined.apply_mask mask.get_blocking_mask (-10000)
  ⟨combined.room_width, fun i => combined.val i - mask.soft_mask i * 100⟩

/-- `HeatmapSolver._generate_candidates`: top-k positions of the combined
field, filtered by `is_valid_placement` and `score > -5000`. -/
def HeatmapSolver.generate_candidates (gexp : ℚ → ℚ) (solver : HeatmapSolver)
    (item_type : String) (item_width : ℕ) (mask : CollisionMask)
    (emitters : List FieldEmitter) : List PlacementCandidate :=
  let combined := solver.combined_field gexp item_type mask emitters
  let top_positions := combined.find_top_k_positions item_width solver.CANDIDATES_PER_ITEM
  (top_positions.filter
      (fun ps => mask.is_valid_placement ps.1 item_width && decide (ps.2 > -5000))).map
    (fun ps => ⟨ps.1, ps.2, item_type, item_width⟩)

/-- The child solution built inside `HeatmapSolver._expand_beam`: clone
the parent, append the candidate, add its score, `mark_occupied` with
door swing, and append a `FieldEmitter`. -/
def HeatmapSolver.child_solution (sol : PartialSolution) (cand : PlacementCandidate) :
    PartialSolution :=
  let new_sol := sol.copy
  ⟨new_sol.placements ++ [cand],
    new_sol.total_score + cand.score,
    new_sol.collision_mask.mark_occupied cand.position (cand.position + cand.width)
      true 45 (mkRat 1 2),
    new_sol.emitters ++ [⟨cand.position, cand.width, cand.item_type⟩]⟩

/-- `HeatmapSolver._expand_beam`: every parent spawns one child per
surviving candidate; children are stably sorted by total score
descending and truncated to `BEAM_WIDTH`. -/
def HeatmapSolver.expand_beam (gexp : ℚ → ℚ) (solver : HeatmapSolver)
    (beam : List PartialSolution) (item : WishItem) : List PartialSolution :=
  let item_width := item.width.getD 60
  let new_solutions := beam.flatMap (fun sol =>
    (solver.generate_candidates gexp item.wtype item_width sol.collision_mask
        sol.emitters).map
      (fun cand => HeatmapSolver.child_solution sol cand))
  (sortStable (fun a b : PartialSolution => b.total_score ≤ a.total_score)
      new_solutions).take solver.BEAM_WIDTH

/-- A produced volume (`{'x', 'width', 'function', 'metadata': {...}}`);
the L-shape transforms additionally write `z`, `axis` and `arm`. -/
structure Volume where
  x : ℤ
  width : ℤ
  vfunction : String
  height : ℤ
  is_monolith : Bool
  heatmap_score : Option ℚ := none
  z : Option ℤ := none
  axis : Option String := none
  arm : Option String := none

/-- `HeatmapSolver._candidates_to_volumes`. -/
def HeatmapSolver.candidates_to_volumes (placements : List PlacementCandidate) :
    List Volume :=
  placements.map (fun p =>
    let monolith := p.item_type = "fridge" ∨ p.item_type = "pantry" ∨
      p.item_type = "oven_tower"
    { x := p.position, width := p.width, vfunction := p.item_type,
      height := if monolith then 215 else 85,
      is_monolith := monolith, heatmap_score := some p.score })

/-- The first width of the `[60, 45, 30]` ladder that fits the remaining
gap (`chosen_width` in `_fill_range`). -/
def chooseWidth (gap : ℤ) : Option ℤ :=
  if 60 ≤ gap then some 60 else if 45 ≤ gap then some 45
  else if 30 ≤ gap then some 30 else none

/-- The `<30cm` remainder handling after the `_fill_range` loop: a filler
panel sized to exactly fill it. -/
def tinyGapFill (current_x gap : ℤ) : List Volume :=
  if 0 < gap ∧ gap < 30 then
    [{ x := current_x, width := gap, vfunction := "filler", height := 85,
       is_monolith := false }]
  else []

/-- The `while gap_remaining >= 30` loop of `HeatmapSolver._fill_range`,
with explicit fuel (the loop consumes at least 30 cm per iteration, so
`gap.toNat` steps always suffice); `dishwasher` is the not-yet-used
dishwasher entry. -/
def fillLoop : ℕ → ℤ → ℤ → Option WishItem → List Volume
  | 0, current_x, gap, _ => tinyGapFill current_x gap
  | fuel + 1, current_x, gap, dishwasher =>
    if 30 ≤ gap then
      match chooseWidth gap with
      | none => tinyGapFill current_x gap
      | some chosen =>
        if dishwasher.isSome ∧ chosen = 60 then
          { x := current_x, width := 60, vfunction := "dishwasher", height := 85,
            is_monolith := false } ::
            fillLoop fuel (current_x + 60) (gap - 60) none
        else
          { x := current_x, width := chosen, vfunction := "drawer_cabinet", height := 85,
            is_monolith := false } ::
            fillLoop fuel (current_x + chosen) (gap - chosen) dishwasher
    else tinyGapFill current_x gap

/-- `HeatmapSolver._fill_range`: fills `[start, end)` with the standard
width ladder, using the dishwasher (looked up afresh from the pool) at
most once within this range. -/
def HeatmapSolver.fill_range (start end_cm : ℤ) (available_fillers : List WishItem) :
    List Volume :=
  let dishwasher := available_fillers.find? (fun f => f.wtype = "dishwasher")
  fillLoop (end_cm - start).toNat start (end_cm - start) dishwasher

/-- The middle gaps of `HeatmapSolver._fill_gaps_classical`: for each
adjacent sorted pair, fill the gap when it is at least 30 cm. -/
def middleGapsFill (available_fillers : List WishItem) : List Volume → List Volume
  | a :: b :: rest =>
    (if 30 ≤ b.x - (a.x + a.width) then
      HeatmapSolver.fill_range (a.x + a.width) b.x available_fillers
    else []) ++ middleGapsFill available_fillers (b :: rest)
  | _ => []

/-- `HeatmapSolver._fill_gaps_classical`: deterministic gap filling
before the first anchor, between adjacent anchors, and after the last. -/
def HeatmapSolver.fill_gaps_classical (solver : HeatmapSolver)
    (anchors : List Volume) (fillers : List WishItem) : List Volume :=
  match sortStable (fun a b : Volume => a.x ≤ b.x) anchors with
  | [] => []
  | first :: rest =>
    let anchors_sorted := first :: rest
    let start_fill :=
      if 30 < first.x then HeatmapSolver.fill_range 0 first.x fillers else []
    let middle_fill := middleGapsFill fillers anchors_sorted
    let last := (first :: rest).getLast (by simp)
    let last_end := last.x + last.width
    let end_fill :=
      if 30 < (solver.room.width : ℤ) - last_end then
        HeatmapSolver.fill_range last_end solver.room.width fillers
      else []
    start_fill ++ middle_fill ++ end_fill

/-- Python's `max(beam, key=total_score)`: the first element attaining
the maximal score. -/
def bestSolution (first : PartialSolution) (rest : List PartialSolution) :
    PartialSolution :=
  rest.foldl (fun b s => if b.total_score < s.total_score then s else b) first

/-- The result of one solve: the positioned volumes (debug data is not
modelled). -/
structure SolveResult where
  volumes : List Volume

/-- The anchors of a wishlist in the order `_expand_beam` consumes them:
filter by `ANCHOR_TYPES`, then stable sort by fixed priority. -/
def HeatmapSolver.sorted_anchors (wishlist : List WishItem) : List WishItem :=
  sortStable (fun a b : WishItem => anchorPriorityKey a.wtype ≤ anchorPriorityKey b.wtype)
    (wishlist.filter (fun item => isAnchorType item.wtype))

/-- The beam after the first `n` anchors have been expanded, starting
from the single empty `PartialSolution`. -/
def HeatmapSolver.beam_after (gexp : ℚ → ℚ) (solver : HeatmapSolver)
    (wishlist : List WishItem) (n : ℕ) : List PartialSolution :=
  ((HeatmapSolver.sorted_anchors wishlist).take n).foldl
    (fun beam item => solver.expand_beam gexp beam item)
    [⟨[], 0, CollisionMask.create solver.room.width, []⟩]

/-- `HeatmapSolver.solve`: beam search over the anchors, then classical
gap filling (unless `skip_fillers`), result sorted by `x`. -/
def HeatmapSolver.solve (gexp : ℚ → ℚ) (solver : HeatmapSolver)
    (wishlist : List WishItem) (skip_fillers : Bool := false) : SolveResult :=
  let fillers := wishlist.filter (fun item => isFillerType item.wtype)
  let beam := solver.beam_after gexp wishlist (HeatmapSolver.sorted_anchors wishlist).length
  match beam with
  | [] => { volumes := [] }
  | s :: srest =>
    let best := bestSolution s srest
    let anchor_volumes := HeatmapSolver.candidates_to_volumes best.placements
    let all_volumes :=
      if skip_fillers then anchor_volumes
      else anchor_volumes ++ solver.fill_gaps_classical anchor_volumes fillers
    { volumes := sortStable (fun a b : Volume => a.x ≤ b.x) all_volumes }

/-- `CORNER_SIZES` (`grid.py`) with the `.get(corner_type, 65)` fallback
used by the L-shape solver. -/
def cornerSizeOf (corner_type : String) : ℤ :=
  if corner_type = "blind" then 65
  else if corner_type = "diagonal" then 87
  else if corner_type = "carousel" then 90
  else 65

/-- Python's `room.wall_b_length or room.length`: falls back to `length`
when `wall_b_length` is missing or zero (falsy). -/
def Room.wall_b_or_length (room : Room) : ℤ :=
  match room.wall_b_length with
  | some b => if b = 0 then room.length else b
  | none => room.length

/-- `LShapeHeatmapSolver` state after `__init__` (the two per-arm
sub-solvers are built from these quantities). -/
structure LShapeHeatmapSolver where
  room : Room
  corner_type : String
  BEAM_WIDTH : ℕ
  corner_size : ℤ
  arm_a_length : ℤ
  arm_b_length : ℤ

/-- `LShapeHeatmapSolver.__init__`: corner lookup and arm dimensions. -/
def LShapeHeatmapSolver.mk_solver (room : Room) (corner_type : String := "blind")
    (beam_width : ℕ := 50) : LShapeHeatmapSolver :=
  let corner_size := cornerSizeOf corner_type
  ⟨room, corner_type, beam_width, corner_size,
    (room.width : ℤ) - corner_size,
    room.wall_b_or_length - corner_size⟩

/-- `ARM_PREFERENCES` (`solver.py`). -/
def armPreference (item_type : String) : String :=
  if item_type = "fridge" ∨ item_type = "pantry" ∨ item_type = "oven_tower" then "B_END"
  else if item_type = "sink_cabinet" ∨ item_type = "sink" ∨ item_type = "dishwasher" then
    "WATER"
  else if item_type = "stove_cabinet" ∨ item_type = "stove" then "GAS"
  else "BALANCE"

/-- The loop body of `LShapeHeatmapSolver._distribute_items`, threading
the two accumulated arm lists exactly as the Python lists grow. -/
def distributeAux (ls : LShapeHeatmapSolver) (water_on_a gas_on_a no_gas_defined : Bool) :
    List WishItem → List WishItem → List WishItem → List WishItem × List WishItem
  | arm_a, arm_b, [] => (arm_a, arm_b)
  | arm_a, arm_b, item :: rest =>
    let preference := armPreference item.wtype
    if preference = "B_END" then
      distributeAux ls water_on_a gas_on_a no_gas_defined arm_a (arm_b ++ [item]) rest
    else if preference = "WATER" then
      if water_on_a then
        distributeAux ls water_on_a gas_on_a no_gas_defined (arm_a ++ [item]) arm_b rest
      else
        distributeAux ls water_on_a gas_on_a no_gas_defined arm_a (arm_b ++ [item]) rest
    else if preference = "GAS" then
      if gas_on_a || no_gas_defined then
        distributeAux ls water_on_a gas_on_a no_gas_defined (arm_a ++ [item]) arm_b rest
      else
        distributeAux ls water_on_a gas_on_a no_gas_defined arm_a (arm_b ++ [item]) rest
    else
      let arm_a_used := (arm_a.map (fun i => ((i.width.getD 60 : ℕ) : ℤ))).sum
      let arm_b_used := (arm_b.map (fun i => ((i.width.getD 60 : ℕ) : ℤ))).sum
      if ls.arm_b_length - arm_b_used < ls.arm_a_length - arm_a_used then
        distributeAux ls water_on_a gas_on_a no_gas_defined (arm_a ++ [item]) arm_b rest
      else
        distributeAux ls water_on_a gas_on_a no_gas_defined arm_a (arm_b ++ [item]) rest

/-- `LShapeHeatmapSolver._distribute_items`: rule-based item-to-arm
partition of the wishlist. -/
def LShapeHeatmapSolver.distribute_items (ls : LShapeHeatmapSolver)
    (wishlist : List WishItem) : List WishItem × List WishItem :=
  let water_on_a := ls.room.utilities.any
    (fun u => u.utype = "water" && decide (ls.corner_size ≤ u.x))
  let gas_on_a := ls.room.utilities.any
    (fun u => u.utype = "gas" && decide (ls.corner_size ≤ u.x))
  let gas_on_b := ls.room.utilities.any
    (fun u => u.utype = "gas" && decide (u.x < ls.corner_size))
  let no_gas_defined := !gas_on_a && !gas_on_b
  distributeAux ls water_on_a gas_on_a no_gas_defined [] [] wishlist

/-- `LShapeHeatmapSolver._transform_arm_a_volumes`: `x += corner_size`,
`z = 0`, tagged axis `X` / arm `A`. -/
def LShapeHeatmapSolver.transform_arm_a_volumes (ls : LShapeHeatmapSolver)
    (volumes : List Volume) : List Volume :=
  volumes.map (fun vol =>
    { vol with
        x := vol.x + ls.corner_size, z := some 0,
        axis := some "X", arm := some "A" })

/-- `LShapeHeatmapSolver._transform_arm_b_volumes`: `x = 0`,
`z = local_x + corner_size` (axis swap), tagged axis `Z` / arm `B`. -/
def LShapeHeatmapSolver.transform_arm_b_volumes (ls : LShapeHeatmapSolver)
    (volumes : List Volume) : List Volume :=
  volumes.map (fun vol =>
    { vol with
        x := 0, z := some (vol.x + ls.corner_size),
        axis := some "Z", arm := some "B" })

/-- A heap of NumPy float arrays: cell `r` holds the array bound to the
`data` attribute of the `GridMap` object with reference `r`.  Used to
state the frame property of candidate generation (which arrays a call
writes). -/
structure Store where
  next : ℕ
  mem : ℕ → (ℕ → ℚ)

/-- Allocate a fresh array (`np.ndarray` copy), returning its reference. -/
def Store.alloc (st : Store) (v : ℕ → ℚ) : ℕ × Store :=
  (st.next, ⟨st.next + 1, fun r => if r = st.next then v else st.mem r⟩)

/-- In-place update of the array behind reference `r` (`+=`, `-=` or the
`data` attribute rebinding of `apply_mask`). -/
def Store.update (st : Store) (r : ℕ) (f : (ℕ → ℚ) → (ℕ → ℚ)) : Store :=
  ⟨st.next, fun q => if q = r then f (st.mem q) else st.mem q⟩

/-- The references of the six entries of the solver's `_static_layers`
dictionary. -/
structure LayerRefs where
  architecture : ℕ
  installation_water : ℕ
  installation_gas : ℕ
  ergonomics : ℕ
  traffic : ℕ
  light : ℕ

/-- Dictionary lookup on the layer references. -/
def LayerRefs.find (R : LayerRefs) (name : String) : Option ℕ :=
  if name = "architecture" then some R.architecture
  else if name = "installation_water" then some R.installation_water
  else if name = "installation_gas" then some R.installation_gas
  else if name = "ergonomics" then some R.ergonomics
  else if name = "traffic" then some R.traffic
  else if name = "light" then some R.light
  else none

/-- All six layer references are live cells of the store. -/
def LayerRefs.inStore (R : LayerRefs) (st : Store) : Prop :=
  R.architecture < st.next ∧ R.installation_water < st.next ∧
    R.installation_gas < st.next ∧ R.ergonomics < st.next ∧
    R.traffic < st.next ∧ R.light < st.next

/-- `HeatmapSolver._generate_candidates` as a store transformer: each
NumPy statement is an allocation or an in-place update of the array it
targets.  `combined = architecture.copy()` allocates a fresh array; every
subsequent mutation hits that fresh array only. -/
def generate_candidates_store (gexp : ℚ → ℚ) (room_width candidates_per_item : ℕ)
    (R : LayerRefs) (st : Store) (item_type : String) (item_width : ℕ)
    (mask : CollisionMask) (emitters : List FieldEmitter) :
    List PlacementCandidate × Store :=
  let weights := get_layer_weights item_type
  let ar := R.architecture
  let alloc_result := st.alloc (st.mem ar)
  let cr := alloc_result.1
  let st := alloc_result.2
  let st := weights.foldl
    (fun s nw =>
      match R.find nw.1 with
      | some lr => if nw.2 > 0 then s.update cr (fun f => fun i => f i + s.mem lr i * nw.2)
        else s
      | none => s) st
  let st :=
    if emitters.isEmpty then st
    else
      let dynamic := compute_dynamic_fields gexp emitters item_type room_width
      st.update cr (fun f => fun i => f i + dynamic.val i)
  let st := st.update cr (fun f => fun i => if mask.hard_mask i > 0 then (-10000) else f i)
  let st := st.update cr (fun f => fun i => f i - mask.soft_mask i * 100)
  let combined : GridMap := ⟨room_width, st.mem cr⟩
  let top_positions := combined.find_top_k_positions item_width candidates_per_item
  ((top_positions.filter
      (fun ps => mask.is_valid_placement ps.1 item_width && decide (ps.2 > -5000))).map
    (fun ps => (⟨ps.1, ps.2, item_type, item_width⟩ : PlacementCandidate)), st)

/-- `HeatmapSolver._expand_beam` threading the array store through each
`_generate_candidates` call. -/
def expand_beam_store (gexp : ℚ → ℚ) (room_width beam_width candidates_per_item : ℕ)
    (R : LayerRefs) (beam : List PartialSolution) (item : WishItem) (st : Store) :
    List PartialSolution × Store :=
  let item_width := item.width.getD 60
  let step := beam.foldl
    (fun acc sol =>
      let gc := generate_candidates_store gexp room_width candidates_per_item R acc.2
        item.wtype item_width sol.collision_mask sol.emitters
      (acc.1 ++ gc.1.map (fun cand => HeatmapSolver.child_solution sol cand), gc.2))
    (([] : List PartialSolution), st)
  ((sortStable (fun a b : PartialSolution => b.total_score ≤ a.total_score)
      step.1).take beam_width, step.2)

/-- The anchor-placement loop of `HeatmapSolver.solve` threading the
array store: the store-level effect of a whole solve on the static
layers is the effect of its `_generate_candidates` calls. -/
def solve_store (gexp : ℚ → ℚ) (room_width beam_width candidates_per_item : ℕ)
    (R : LayerRefs) (wishlist : List WishItem) (st : Store) :
    List PartialSolution × Store :=
  (HeatmapSolver.sorted_anchors wishlist).foldl
    (fun acc item =>
      expand_beam_store gexp room_width beam_width candidates_per_item R acc.1 item acc.2)
    ([⟨[], 0, CollisionMask.create room_width, []⟩], st)

theorem insertOrd_perm {α : Type} (le : α → α → Bool) (x : α) (l : List α) :
    (insertOrd le x l).Perm (x :: l) := by
  induction l with
  | nil => exact List.Perm.refl _
  | cons y ys ih =>
    unfold insertOrd
    by_cases h : le x y
    · simp [h]
    · simp only [h, if_false]
      exact (List.Perm.cons y ih).trans (List.Perm.swap x y ys)

theorem sortStable_perm {α : Type} (le : α → α → Bool) (l : List α) :
    (sortStable le l).Perm l := by
  induction l with
  | nil => exact List.Perm.refl _
  | cons x xs ih =>
    exact (insertOrd_perm le x (sortStable le xs)).trans (List.Perm.cons x ih)

theorem mem_sortStable {α : Type} {le : α → α → Bool} {l : List α} {a : α} :
    a ∈ sortStable le l ↔ a ∈ l :=
  (sortStable_perm le l).mem_iff

theorem dyn_foldl_val (gexp : ℚ → ℚ) (t : String) (w : ℕ) (l : List FieldEmitter)
    (g : GridMap) (i : ℕ) :
    (l.foldl
        (fun g emitter =>
          (⟨g.room_width, fun i =>
            g.val i + (emitter.get_combined_field_for gexp t w).val i⟩ : GridMap)) g).val i
      = g.val i + (compute_dynamic_fields gexp l t w).val i := by
  induction l generalizing g with
  | nil => simp [compute_dynamic_fields, GridMap.zeros, GridMap.create]
  | cons e rest ih =>
    simp only [compute_dynamic_fields, List.foldl_cons]
    rw [ih, ih]
    simp [GridMap.zeros, GridMap.create]
    ring

/-- Claim C4: `compute_dynamic_fields` is linear in the emitter list: the field
of a concatenation of two emitter lists is the pointwise sum of the two
fields (linear superposition, `fields.py:156-178`). -/
theorem compute_dynamic_fields_linear (gexp : ℚ → ℚ) (t : String) (w : ℕ)
    (A B : List FieldEmitter) (i : ℕ) :
    (compute_dynamic_fields gexp (A ++ B) t w).val i
      = (compute_dynamic_fields gexp A t w).val i
        + (compute_dynamic_fields gexp B t w).val i := by
  unfold compute_dynamic_fields
  rw [List.foldl_append, dyn_foldl_val]
  rfl

/-- Claim C8: the L-shape dual-span solver uses corner sizes 65/87/90 for
blind/diagonal/carousel corners, sets the arm lengths to
`room_width - corner_size` and `wall_b_length - corner_size`, and maps an
Arm B local position `p` to global `(x=0, z=p+corner_size)` and an Arm A
local position `p` to global `(x=p+corner_size, z=0)`
(`solver.py:408-430, 586-612`). -/
theorem lshape_corner_arms_transforms (room : Room) (ct : String) (bw : ℕ) (L : ℤ)
    (hwb : room.wall_b_length = some L) (hL : L ≠ 0)
    (hct : ct = "blind" ∨ ct = "diagonal" ∨ ct = "carousel") :
    (LShapeHeatmapSolver.mk_solver room ct bw).corner_size
        = (if ct = "blind" then 65 else if ct = "diagonal" then 87 else 90) ∧
    (LShapeHeatmapSolver.mk_solver room ct bw).arm_a_length
        = (room.width : ℤ) - (LShapeHeatmapSolver.mk_solver room ct bw).corner_size ∧
    (LShapeHeatmapSolver.mk_solver room ct bw).arm_b_length
        = L - (LShapeHeatmapSolver.mk_solver room ct bw).corner_size ∧
    (∀ vols : List Volume,
      List.Forall₂
        (fun v u => u.x = v.x + (LShapeHeatmapSolver.mk_solver room ct bw).corner_size ∧
          u.z = some 0)
        vols ((LShapeHeatmapSolver.mk_solver room ct bw).transform_arm_a_volumes vols)) ∧
    (∀ vols : List Volume,
      List.Forall₂
        (fun v u => u.x = 0 ∧
          u.z = some (v.x + (LShapeHeatmapSolver.mk_solver room ct bw).corner_size))
        vols ((LShapeHeatmapSolver.mk_solver room ct bw).transform_arm_b_volumes vols)) := by
  refine ⟨?_, rfl, ?_, ?_, ?_⟩
  · rcases hct with h | h | h <;> subst h <;>
      simp [LShapeHeatmapSolver.mk_solver, cornerSizeOf]
  · simp [LShapeHeatmapSolver.mk_solver, Room.wall_b_or_length, hwb, hL]
  · intro vols
    rw [LShapeHeatmapSolver.transform_arm_a_volumes, List.forall₂_map_right_iff,
      List.forall₂_same]
    intro v _
    exact ⟨rfl, rfl⟩
  · intro vols
    rw [LShapeHeatmapSolver.transform_arm_b_volumes, List.forall₂_map_right_iff,
      List.forall₂_same]
    intro v _
    exact ⟨rfl, rfl⟩

/-- Witness for C8: a blind-corner 400×300 L-shape room gets corner size
65, Arm A length 335 and Arm B length 235. -/
theorem lshape_corner_arms_transforms_witness :
    (LShapeHeatmapSolver.mk_solver
        ⟨400, 300, 260, [], [], [], some 300⟩ "blind" 50).corner_size = 65 ∧
    (LShapeHeatmapSolver.mk_solver
        ⟨400, 300, 260, [], [], [], some 300⟩ "blind" 50).arm_a_length = 335 ∧
    (LShapeHeatmapSolver.mk_solver
        ⟨400, 300, 260, [], [], [], some 300⟩ "blind" 50).arm_b_length = 235 := by
  obtain ⟨h1, h2, h3, -, -⟩ := lshape_corner_arms_transforms
    ⟨400, 300, 260, [], [], [], some 300⟩ "blind" 50 300 rfl (by decide) (Or.inl rfl)
  refine ⟨by simpa using h1, by rw [h2, h1]; norm_num, by rw [h3, h1]; norm_num⟩

theorem distributeAux_multiset (ls : LShapeHeatmapSolver) (wa ga ng : Bool) :
    ∀ (items a b : List WishItem),
      ((distributeAux ls wa ga ng a b items).1 : Multiset WishItem)
          + ((distributeAux ls wa ga ng a b items).2 : Multiset WishItem)
        = (a : Multiset WishItem) + (b : Multiset WishItem) + (items : Multiset WishItem) := by
  intro items
  induction items with
  | nil => intro a b; simp [distributeAux]
  | cons x rest ih =>
    intro a b
    have hx : ∀ l : List WishItem,
        ((l ++ [x] : List WishItem) : Multiset WishItem)
          = (l : Multiset WishItem) + ([x] : List WishItem) :=
      fun l => (Multiset.coe_add l [x]).symm
    have hcons : ((x :: rest : List WishItem) : Multiset WishItem)
        = (([x] : List WishItem) : Multiset WishItem) + (rest : Multiset WishItem) :=
      Multiset.coe_add [x] rest
    simp only [distributeAux]
    split_ifs <;> rw [ih, hcons] <;> rw [hx] <;> abel

theorem distributeAux_fst_sublist (ls : LShapeHeatmapSolver) (wa ga ng : Bool) :
    ∀ (items a b : List WishItem),
      ∃ a', (distributeAux ls wa ga ng a b items).1 = a ++ a' ∧ a'.Sublist items := by
  intro items
  induction items with
  | nil => intro a b; exact ⟨[], by simp [distributeAux], List.Sublist.refl _⟩
  | cons x rest ih =>
    intro a b
    simp only [distributeAux]
    split_ifs
    case _ => obtain ⟨a', h1, h2⟩ := ih a (b ++ [x])
              exact ⟨a', h1, h2.cons x⟩
    case _ => obtain ⟨a', h1, h2⟩ := ih (a ++ [x]) b
              exact ⟨x :: a', by simpa using h1, h2.cons₂ x⟩
    case _ => obtain ⟨a', h1, h2⟩ := ih a (b ++ [x])
              exact ⟨a', h1, h2.cons x⟩
    case _ => obtain ⟨a', h1, h2⟩ := ih (a ++ [x]) b
              exact ⟨x :: a', by simpa using h1, h2.cons₂ x⟩
    case _ => obtain ⟨a', h1, h2⟩ := ih a (b ++ [x])
              exact ⟨a', h1, h2.cons x⟩
    case _ => obtain ⟨a', h1, h2⟩ := ih (a ++ [x]) b
              exact ⟨x :: a', by simpa using h1, h2.cons₂ x⟩
    case _ => obtain ⟨a', h1, h2⟩ := ih a (b ++ [x])
              exact ⟨a', h1, h2.cons x⟩

theorem distributeAux_snd_sublist (ls : LShapeHeatmapSolver) (wa ga ng : Bool) :
    ∀ (items a b : List WishItem),
      ∃ b', (distributeAux ls wa ga ng a b items).2 = b ++ b' ∧ b'.Sublist items := by
  intro items
  induction items with
  | nil => intro a b; exact ⟨[], by simp [distributeAux], List.Sublist.refl _⟩
  | cons x rest ih =>
    intro a b
    simp only [distributeAux]
    split_ifs
    case _ => obtain ⟨b', h1, h2⟩ := ih a (b ++ [x])
              exact ⟨x :: b', by simpa using h1, h2.cons₂ x⟩
    case _ => obtain ⟨b', h1, h2⟩ := ih (a ++ [x]) b
              exact ⟨b', h1, h2.cons x⟩
    case _ => obtain ⟨b', h1, h2⟩ := ih a (b ++ [x])
              exact ⟨x :: b', by simpa using h1, h2.cons₂ x⟩
    case _ => obtain ⟨b', h1, h2⟩ := ih (a ++ [x]) b
              exact ⟨b', h1, h2.cons x⟩
    case _ => obtain ⟨b', h1, h2⟩ := ih a (b ++ [x])
              exact ⟨x :: b', by simpa using h1, h2.cons₂ x⟩
    case _ => obtain ⟨b', h1, h2⟩ := ih (a ++ [x]) b
              exact ⟨b', h1, h2.cons x⟩
    case _ => obtain ⟨b', h1, h2⟩ := ih a (b ++ [x])
              exact ⟨x :: b', by simpa using h1, h2.cons₂ x⟩

/-- Claim C10: `_distribute_items` partitions the wishlist: as multisets
the two arm lists add up exactly to the wishlist (no entry dropped or
duplicated), and each arm list is a sublist of the wishlist, so entries
keep their relative wishlist order (`solver.py:527-584`). -/
theorem distribute_items_partition (ls : LShapeHeatmapSolver) (wishlist : List WishItem) :
    ((ls.distribute_items wishlist).1 : Multiset WishItem)
        + ((ls.distribute_items wishlist).2 : Multiset WishItem)
      = (wishlist : Multiset WishItem) ∧
    (ls.distribute_items wishlist).1.Sublist wishlist ∧
    (ls.distribute_items wishlist).2.Sublist wishlist := by
  unfold LShapeHeatmapSolver.distribute_items
  refine ⟨?_, ?_, ?_⟩
  · rw [distributeAux_multiset]
    simp
  · obtain ⟨a', h1, h2⟩ := distributeAux_fst_sublist ls _ _ _ wishlist [] []
    rw [h1]
    simpa using h2
  · obtain ⟨b', h1, h2⟩ := distributeAux_snd_sublist ls _ _ _ wishlist [] []
    rw [h1]
    simpa using h2

theorem le_listMax (l : List ℚ) : ∀ x ∈ l, x ≤ listMax l := by
  induction l with
  | nil => simp
  | cons a tl ih =>
    cases tl with
    | nil =>
      intro x hx
      rw [List.mem_singleton] at hx
      subst hx
      exact le_of_eq rfl
    | cons b tl2 =>
      intro x hx
      rw [listMax]
      rcases List.mem_cons.mp hx with h | h
      · subst h; exact le_max_left _ _
      · exact le_trans (ih x h) (le_max_right _ _)

theorem listMax_mem (l : List ℚ) (h : l ≠ []) : listMax l ∈ l := by
  induction l with
  | nil => exact absurd rfl h
  | cons a tl ih =>
    cases tl with
    | nil => rw [listMax]; exact List.mem_singleton_self a
    | cons b tl2 =>
      rw [listMax]
      rcases le_total a (listMax (b :: tl2)) with hc | hc
      · rw [max_eq_right hc]
        exact List.mem_cons_of_mem _ (ih (by simp))
      · rw [max_eq_left hc]
        exact List.mem_cons_self a _

/-- Claim C2: `find_best_position` returns a position in
`[0, room_width - item_width]` whose width-`item_width` window sum is
maximal over all such positions, and returns `0` whenever
`item_width ≥ room_width` (`grid.py:77-92`). -/
theorem find_best_position_maximal (g : GridMap) (item_width : ℕ) :
    (0 < item_width → item_width < g.room_width →
      g.find_best_position item_width ≤ g.room_width - item_width ∧
      ∀ q, q ≤ g.room_width - item_width →
        windowSum g.val q item_width
          ≤ windowSum g.val (g.find_best_position item_width) item_width) ∧
    (g.room_width ≤ item_width → g.find_best_position item_width = 0) := by
  constructor
  · intro h0 h1
    have hlen : (g.scores item_width).length = g.room_width - item_width + 1 := by
      simp [GridMap.scores]
    have hne : g.scores item_width ≠ [] := by
      intro h
      rw [h] at hlen
      simp at hlen
    have hmem := listMax_mem _ hne
    have hidx : (g.scores item_width).indexOf (listMax (g.scores item_width))
        < (g.scores item_width).length :=
      List.indexOf_lt_length.mpr hmem
    have hfb : g.find_best_position item_width
        = (g.scores item_width).indexOf (listMax (g.scores item_width)) := by
      unfold GridMap.find_best_position argmaxFirst
      rw [if_neg (by omega)]
    have hval : (g.scores item_width).get
        ⟨(g.scores item_width).indexOf (listMax (g.scores item_width)), hidx⟩
        = listMax (g.scores item_width) := by
      rw [List.get_eq_getElem]
      exact List.getElem_indexOf hidx
    have hgetscore : ∀ (q : ℕ) (hq : q < (g.scores item_width).length),
        (g.scores item_width).get ⟨q, hq⟩ = windowSum g.val q item_width := by
      intro q hq
      simp [GridMap.scores]
    constructor
    · rw [hfb]; omega
    · intro q hq
      have hq' : q < (g.scores item_width).length := by omega
      have h2 : windowSum g.val q item_width ≤ listMax (g.scores item_width) := by
        rw [← hgetscore q hq']
        exact le_listMax _ _ (List.get_mem _ q hq')
      rw [hfb, ← hgetscore _ hidx, hval]
      exact h2
  · intro h
    unfold GridMap.find_best_position
    rw [if_pos (by omega)]

/-- Witness for C2: a 5-cell field with a single spike at cell 3 and an
item of width 2; the hypotheses `0 < 2` and `2 < 5` hold and the theorem
applies. -/
theorem find_best_position_maximal_witness :
    0 < 2 ∧ 2 < (GridMap.mk 5 (fun i => if i = 3 then 10 else 0)).room_width ∧
    ((GridMap.mk 5 (fun i => if i = 3 then 10 else 0)).find_best_position 2 ≤ 5 - 2 ∧
      ∀ q, q ≤ 5 - 2 →
        windowSum (fun i => if i = 3 then (10 : ℚ) else 0) q 2
          ≤ windowSum (fun i => if i = 3 then (10 : ℚ) else 0)
            ((GridMap.mk 5 (fun i => if i = 3 then 10 else 0)).find_best_position 2) 2) :=
  ⟨by decide, by decide,
    (find_best_position_maximal (GridMap.mk 5 (fun i => if i = 3 then 10 else 0)) 2).1
      (by decide) (by decide)⟩

theorem natWindowSum_eq_zero (f : ℕ → ℕ) :
    ∀ (n p : ℕ), natWindowSum f p n = 0 ↔ ∀ j, p ≤ j → j < p + n → f j = 0 := by
  intro n
  induction n with
  | zero =>
    intro p
    constructor
    · intro _ j h1 h2; omega
    · intro _; rfl
  | succ n ih =>
    intro p
    rw [natWindowSum, Nat.add_eq_zero, ih (p + 1)]
    constructor
    · intro ⟨hp, hrest⟩ j h1 h2
      rcases Nat.eq_or_lt_of_le h1 with h | h
      · exact h ▸ hp
      · exact hrest j h (by omega)
    · intro h
      exact ⟨h p (le_refl p) (by omega), fun j h1 h2 => h j (by omega) (by omega)⟩

theorem is_valid_placement_spec (m : CollisionMask) (s w : ℕ)
    (h : m.is_valid_placement s w = true) :
    s + w ≤ m.room_width ∧ ∀ i, s ≤ i → i < s + w → m.hard_mask i = 0 := by
  unfold CollisionMask.is_valid_placement at h
  rw [Bool.and_eq_true, decide_eq_true_eq, decide_eq_true_eq] at h
  exact ⟨h.1, (natWindowSum_eq_zero m.hard_mask w s).mp h.2⟩

theorem mark_occupied_hard_set (m : CollisionMask) (p w : ℕ) (hb : p + w ≤ m.room_width)
    (ids : Bool) (sw : ℤ) (pen : ℚ) (i : ℕ) (h1 : p ≤ i) (h2 : i < p + w) :
    (m.mark_occupied p (p + w) ids sw pen).hard_mask i = 1 := by
  simp only [CollisionMask.mark_occupied]
  rw [if_pos]
  refine ⟨?_, ?_⟩ <;> omega

theorem mark_occupied_hard_mono (m : CollisionMask) (s e : ℤ) (ids : Bool) (sw : ℤ)
    (pen : ℚ) (i : ℕ) (h : m.hard_mask i = 1) :
    (m.mark_occupied s e ids sw pen).hard_mask i = 1 := by
  simp only [CollisionMask.mark_occupied]
  split
  · rfl
  · exact h

theorem generate_candidates_mem (gexp : ℚ → ℚ) (solver : HeatmapSolver)
    (item_type : String) (item_width : ℕ) (mask : CollisionMask)
    (emitters : List FieldEmitter) (cand : PlacementCandidate)
    (h : cand ∈ solver.generate_candidates gexp item_type item_width mask emitters) :
    mask.is_valid_placement cand.position cand.width = true ∧ cand.width = item_width := by
  unfold HeatmapSolver.generate_candidates at h
  rw [List.mem_map] at h
  obtain ⟨ps, hps, rfl⟩ := h
  rw [List.mem_filter, Bool.and_eq_true] at hps
  exact ⟨hps.2.1, rfl⟩

/-- The C1 invariant of one `PartialSolution`: placements are pairwise
interval-disjoint and every cell of every placement's interval is
hard-marked in the solution's collision mask. -/
def placementsDisjoint (c d : PlacementCandidate) : Prop :=
  ∀ i : ℕ, c.position ≤ i → i < c.position + c.width →
    ¬(d.position ≤ i ∧ i < d.position + d.width)

/-- The beam-search branch invariant (spec section 3, `PartialSolution`). -/
def SolutionInvariant (s : PartialSolution) : Prop :=
  s.placements.Pairwise placementsDisjoint ∧
  ∀ c ∈ s.placements, ∀ i, c.position ≤ i → i < c.position + c.width →
    s.collision_mask.hard_mask i = 1

theorem child_solution_invariant (sol : PartialSolution) (cand : PlacementCandidate)
    (hIv : SolutionInvariant sol)
    (hval : sol.collision_mask.is_valid_placement cand.position cand.width = true) :
    SolutionInvariant (HeatmapSolver.child_solution sol cand) := by
  obtain ⟨hb, hzero⟩ := is_valid_placement_spec _ _ _ hval
  constructor
  · show (sol.placements ++ [cand]).Pairwise placementsDisjoint
    rw [List.pairwise_append]
    refine ⟨hIv.1, List.pairwise_singleton _ _, ?_⟩
    intro c hc d hd
    rw [List.mem_singleton] at hd
    subst hd
    intro i hc1 hc2 hd12
    have hone : sol.collision_mask.hard_mask i = 1 := hIv.2 c hc i hc1 hc2
    have hnil : sol.collision_mask.hard_mask i = 0 := hzero i hd12.1 hd12.2
    omega
  · intro c hc i h1 h2
    rcases List.mem_append.mp hc with h | h
    · exact mark_occupied_hard_mono _ _ _ _ _ _ _ (hIv.2 c h i h1 h2)
    · rw [List.mem_singleton] at h
      subst h
      exact mark_occupied_hard_set _ _ _ hb _ _ _ i h1 h2

theorem expand_beam_length_le (gexp : ℚ → ℚ) (solver : HeatmapSolver)
    (beam : List PartialSolution) (item : WishItem) :
    (solver.expand_beam gexp beam item).length ≤ solver.BEAM_WIDTH := by
  unfold HeatmapSolver.expand_beam
  exact List.length_take_le _ _

theorem expand_beam_invariant (gexp : ℚ → ℚ) (solver : HeatmapSolver)
    (beam : List PartialSolution) (item : WishItem)
    (hbeam : ∀ s ∈ beam, SolutionInvariant s) :
    ∀ s ∈ solver.expand_beam gexp beam item, SolutionInvariant s := by
  intro s hs
  unfold HeatmapSolver.expand_beam at hs
  have hs1 := List.mem_of_mem_take hs
  rw [mem_sortStable, List.mem_flatMap] at hs1
  obtain ⟨sol, hsol, hs2⟩ := hs1
  rw [List.mem_map] at hs2
  obtain ⟨cand, hcand, rfl⟩ := hs2
  exact child_solution_invariant sol cand (hbeam sol hsol)
    (generate_candidates_mem _ _ _ _ _ _ _ hcand).1

theorem beam_after_invariant (gexp : ℚ → ℚ) (solver : HeatmapSolver)
    (wishlist : List WishItem) :
    ∀ n, ∀ s ∈ solver.beam_after gexp wishlist n, SolutionInvariant s := by
  intro n
  induction n with
  | zero =>
    intro s hs
    unfold HeatmapSolver.beam_after at hs
    simp only [List.take_zero, List.foldl_nil, List.mem_singleton] at hs
    subst hs
    refine ⟨List.Pairwise.nil, ?_⟩
    intro c hc
    simp at hc
  | succ n ih =>
    intro s hs
    unfold HeatmapSolver.beam_after at hs ih
    rw [List.take_succ] at hs
    cases hget : (HeatmapSolver.sorted_anchors wishlist)[n]? with
    | none =>
      rw [hget] at hs
      simp only [Option.toList, List.append_nil] at hs
      exact ih s hs
    | some a =>
      rw [hget] at hs
      simp only [Option.toList, List.foldl_append, List.foldl_cons, List.foldl_nil] at hs
      exact expand_beam_invariant gexp solver _ a ih s hs

/-- Claim C1: after each beam expansion-and-prune step (the beam after
`n ≥ 1` anchors, `n` within the anchor count), the beam holds at most
`BEAM_WIDTH` partial solutions, and in every solution the placements'
`[x, x+width)` intervals are pairwise disjoint with every covered cell
hard-marked in that solution's collision mask
(`solver.py:154-197`, `masking.py:88-98`). -/
theorem beam_after_bounded_and_invariant (gexp : ℚ → ℚ) (solver : HeatmapSolver)
    (wishlist : List WishItem) (n : ℕ) (h1 : 0 < n)
    (h2 : n ≤ (HeatmapSolver.sorted_anchors wishlist).length) :
    (solver.beam_after gexp wishlist n).length ≤ solver.BEAM_WIDTH ∧
    ∀ s ∈ solver.beam_after gexp wishlist n, SolutionInvariant s := by
  refine ⟨?_, beam_after_invariant gexp solver wishlist n⟩
  obtain ⟨m, rfl⟩ : ∃ m, n = m + 1 := ⟨n - 1, by omega⟩
  have hm : m < (HeatmapSolver.sorted_anchors wishlist).length := by omega
  unfold HeatmapSolver.beam_after
  rw [List.take_succ, List.getElem?_eq_getElem hm]
  simp only [Option.toList, List.foldl_append, List.foldl_cons, List.foldl_nil]
  exact expand_beam_length_le gexp solver _ _

/-- An `exp` stand-in that is identically zero, used by concrete
witnesses. -/
def gexpZero : ℚ → ℚ := fun _ => 0

/-- An `exp` stand-in that is identically one, used by concrete
witnesses. -/
def gexpOne : ℚ → ℚ := fun _ => 1

/-- A bare 10 cm room used by concrete witnesses. -/
def tinyRoom : Room := ⟨10, 300, 260, [], [], [], none⟩

/-- The solver of the bare 10 cm room. -/
def tinySolver : HeatmapSolver := HeatmapSolver.mk_solver gexpZero tinyRoom 50 3

/-- A wishlist holding one 60 cm fridge. -/
def oneFridge : List WishItem := [⟨"fridge", some 60, none⟩]

/-- Witness for C1: one expansion step on the 10 cm room with a single
fridge anchor; the hypotheses `0 < 1` and `1 ≤ #anchors` hold and the
theorem applies. -/
theorem beam_after_bounded_and_invariant_witness :
    0 < 1 ∧ 1 ≤ (HeatmapSolver.sorted_anchors oneFridge).length ∧
    ((tinySolver.beam_after gexpZero oneFridge 1).length ≤ tinySolver.BEAM_WIDTH ∧
      ∀ s ∈ tinySolver.beam_after gexpZero oneFridge 1, SolutionInvariant s) :=
  ⟨by decide, by decide,
    beam_after_bounded_and_invariant gexpZero tinySolver oneFridge 1 (by decide) (by decide)⟩

theorem expand_beam_nil (gexp : ℚ → ℚ) (solver : HeatmapSolver) (item : WishItem) :
    solver.expand_beam gexp [] item = [] := by
  unfold HeatmapSolver.expand_beam
  simp [sortStable]

theorem foldl_expand_nil (gexp : ℚ → ℚ) (solver : HeatmapSolver) (l : List WishItem) :
    l.foldl (fun beam item => solver.expand_beam gexp beam item) [] = [] := by
  induction l with
  | nil => rfl
  | cons x rest ih => rw [List.foldl_cons, expand_beam_nil]; exact ih

theorem beam_after_nil_of_le (gexp : ℚ → ℚ) (solver : HeatmapSolver)
    (wishlist : List WishItem) (n m : ℕ)
    (h : solver.beam_after gexp wishlist n = []) (hmn : n ≤ m) :
    solver.beam_after gexp wishlist m = [] := by
  unfold HeatmapSolver.beam_after at h ⊢
  have hm : m = n + (m - n) := by omega
  rw [hm, List.take_add, List.foldl_append, h, foldl_expand_nil]

/-- Claim C5: if the beam ever becomes empty during anchor placement (some
anchor yields zero surviving children), `solve` returns a result with an
empty `volumes` list; the embedding is a total function, so no exception
is raised (`solver.py:124-152`). -/
theorem solve_empty_beam_empty_volumes (gexp : ℚ → ℚ) (solver : HeatmapSolver)
    (wishlist : List WishItem) (skip_fillers : Bool)
    (h : ∃ n, solver.beam_after gexp wishlist n = []) :
    (solver.solve gexp wishlist skip_fillers).volumes = [] := by
  obtain ⟨n, hn⟩ := h
  have hfull : solver.beam_after gexp wishlist
      (HeatmapSolver.sorted_anchors wishlist).length = [] := by
    rcases le_or_lt n (HeatmapSolver.sorted_anchors wishlist).length with hc | hc
    · exact beam_after_nil_of_le gexp solver wishlist n _ hn hc
    · have heq : solver.beam_after gexp wishlist n
          = solver.beam_after gexp wishlist (HeatmapSolver.sorted_anchors wishlist).length := by
        unfold HeatmapSolver.beam_after
        rw [List.take_of_length_le (by omega), List.take_length]
      rw [← heq]
      exact hn
  simp [HeatmapSolver.solve, hfull]

/-- Witness for C5: on the 10 cm room a 60 cm fridge has no valid
placement, so the beam empties after the first anchor and `solve`
returns no volumes. -/
theorem solve_empty_beam_empty_volumes_witness :
    (∃ n, tinySolver.beam_after gexpZero oneFridge n = []) ∧
    (tinySolver.solve gexpZero oneFridge false).volumes = [] :=
  ⟨⟨1, rfl⟩,
    solve_empty_beam_empty_volumes gexpZero tinySolver oneFridge false ⟨1, rfl⟩⟩

/-- Counterexample to C6 as stated: one 60 cm anchor at `x=60` in a
400 cm room leaves two gaps (`[0,60)` and `[120,400)`); with a dishwasher
in the filler pool, `_fill_gaps_classical` places a dishwasher in each
gap — two in the whole result, because `_fill_range` looks the dishwasher
up afresh from the unmutated pool on every call. -/
theorem fill_gaps_two_dishwashers :
    ((HeatmapSolver.mk_solver gexpOne ⟨400, 300, 260, [], [], [], none⟩ 50 3).fill_gaps_classical
        [⟨60, 60, "sink_cabinet", 85, false, none, none, none, none⟩]
        [⟨"dishwasher", some 60, none⟩]).countP
      (fun v => v.vfunction == "dishwasher") = 2 := by
  decide

/-- Count of dishwasher volumes contributed by a cons cell. -/
theorem countP_dish_cons (v : Volume) (l : List Volume) :
    (v :: l).countP (fun u => u.vfunction == "dishwasher")
      = l.countP (fun u => u.vfunction == "dishwasher")
        + (if v.vfunction = "dishwasher" then 1 else 0) := by
  rw [List.countP_cons]
  by_cases h : v.vfunction = "dishwasher" <;> simp [h]

/-- The tiny-gap filler panel is never a dishwasher. -/
theorem countP_dish_tiny (x gap : ℤ) :
    (tinyGapFill x gap).countP (fun u => u.vfunction == "dishwasher") = 0 := by
  unfold tinyGapFill
  split <;> simp

theorem fillLoop_dishwasher_le (fuel : ℕ) :
    ∀ (x gap : ℤ) (dw : Option WishItem),
      (fillLoop fuel x gap dw).countP (fun v => v.vfunction == "dishwasher")
        ≤ (if dw.isSome then 1 else 0) := by
  induction fuel with
  | zero =>
    intro x gap dw
    rw [fillLoop, countP_dish_tiny]
    split <;> omega
  | succ fuel ih =>
    intro x gap dw
    rw [fillLoop]
    by_cases hgap : 30 ≤ gap
    · rw [if_pos hgap]
      cases hcw : chooseWidth gap with
      | none =>
        rw [countP_dish_tiny]
        split <;> omega
      | some chosen =>
        dsimp only
        by_cases hdw : dw.isSome = true ∧ chosen = 60
        · rw [if_pos hdw, countP_dish_cons]
          have h0 := ih (x + 60) (gap - 60) none
          simp only [Option.isSome_none, Bool.false_eq_true, if_false] at h0
          simp [hdw.1] at h0 ⊢
          exact h0
        · rw [if_neg hdw, countP_dish_cons]
          have h0 := ih (x + chosen) (gap - chosen) dw
          simpa using h0
    · rw [if_neg hgap, countP_dish_tiny]
      split <;> omega

/-- Claim C6 (amended): each single `_fill_range` call places at most one
dishwasher (its local `dishwasher` variable is cleared after use), but the
dishwasher is looked up afresh from the unmutated pool for every gap, so a
solve with several gaps can emit several dishwashers (`solver.py:265-365`). -/
theorem fill_range_at_most_one_dishwasher (start end_cm : ℤ) (fillers : List WishItem) :
    (HeatmapSolver.fill_range start end_cm fillers).countP
      (fun v => v.vfunction == "dishwasher") ≤ 1 := by
  unfold HeatmapSolver.fill_range
  refine le_trans (fillLoop_dishwasher_le _ _ _ _) ?_
  split <;> omega

/-- The candidate-scoring field exactly as claim C3 words it: weighted sum
of static layers with architecture at weight 1.0 and the other layers
only at positive weights, plus the dynamic field of committed emitters
(when any), minus `10000*hard_mask` minus `100*soft_mask`.  This is the
spec-side formula to compare against the code. -/
def claimedCombinedField (gexp : ℚ → ℚ) (solver : HeatmapSolver) (item_type : String)
    (mask : CollisionMask) (emitters : List FieldEmitter) : ℕ → ℚ := fun i =>
  ((solver.static_layers "architecture").getD (GridMap.zeros solver.room.width)).val i
    + (((get_layer_weights item_type).filter
          (fun nw => decide (nw.1 ≠ "architecture") && decide (0 < nw.2))).map
        (fun nw =>
          match solver.static_layers nw.1 with
          | some layer => nw.2 * layer.val i
          | none => 0)).sum
    + (if emitters.isEmpty then 0
        else (compute_dynamic_fields gexp emitters item_type solver.room.width).val i)
    - 10000 * (mask.hard_mask i : ℚ) - 100 * mask.soft_mask i

/-- A bare two-cell room for the C3 counterexample. -/
def room2 : Room := ⟨2, 300, 260, [], [], [], none⟩

/-- A mask hard-blocking cell 0 of the two-cell room. -/
def mask2 : CollisionMask := ⟨2, fun i => if i = 0 then 1 else 0, fun _ => 0⟩

/-- Counterexample to C3 as stated: on the two-cell room with cell 0
hard-blocked, the code's field is `165` at the free cell (architecture is
added twice: once as the copied base and once via its weight-table entry)
and `-10000` at the blocked cell (replaced, not reduced by `10000`),
while the claimed formula gives `65` and `-9935`. -/
theorem combined_field_formula_counterexample :
    ((HeatmapSolver.mk_solver gexpZero room2 50 3).combined_field gexpZero "sink"
        mask2 []).val 1 = 165 ∧
    claimedCombinedField gexpZero (HeatmapSolver.mk_solver gexpZero room2 50 3) "sink"
        mask2 [] 1 = 65 ∧
    ((HeatmapSolver.mk_solver gexpZero room2 50 3).combined_field gexpZero "sink"
        mask2 []).val 0 = -10000 ∧
    claimedCombinedField gexpZero (HeatmapSolver.mk_solver gexpZero room2 50 3) "sink"
        mask2 [] 0 = -9935 := by
  refine ⟨?_, ?_, ?_, ?_⟩ <;>
    norm_num +decide [HeatmapSolver.combined_field, HeatmapSolver.mk_solver, claimedCombinedField,
      get_layer_weights, LAYER_WEIGHTS, create_architecture_layer, create_installation_layer,
      create_ergonomics_layer, create_traffic_layer, create_light_layer, GridMap.copy,
      GridMap.apply_mask, GridMap.apply_penalty_range, GridMap.add_gaussian,
      GridMap.gaussian_field, GridMap.zeros, GridMap.ones, GridMap.create, gexpZero,
      room2, mask2, listMax, List.range_succ, CollisionMask.get_blocking_mask,
      Rat.mkRat_eq_div]

/-- The pointwise value actually computed by `_generate_candidates`: the
architecture base copy plus every weight-table entry with positive weight
(architecture therefore contributes twice) plus the dynamic field, with
hard-blocked cells replaced by `-10000` before the `100*soft`
subtraction. -/
def codeCombinedFieldFormula (gexp : ℚ → ℚ) (solver : HeatmapSolver) (item_type : String)
    (mask : CollisionMask) (emitters : List FieldEmitter) : ℕ → ℚ := fun i =>
  (if 0 < mask.hard_mask i then (-10000 : ℚ)
   else
     ((solver.static_layers "architecture").getD (GridMap.zeros solver.room.width)).val i
       + ((get_layer_weights item_type).map
           (fun nw =>
             match solver.static_layers nw.1 with
             | some layer => if 0 < nw.2 then nw.2 * layer.val i else 0
             | none => 0)).sum
       + (if emitters.isEmpty then 0
          else (compute_dynamic_fields gexp emitters item_type solver.room.width).val i))
    - 100 * mask.soft_mask i

theorem combined_weights_foldl (solver : HeatmapSolver) (ws : List (String × ℚ))
    (i : ℕ) : ∀ g0 : GridMap,
    (ws.foldl
        (fun g nw =>
          match solver.static_layers nw.1 with
          | some layer =>
            if nw.2 > 0 then ⟨g.room_width, fun i => g.val i + layer.val i * nw.2⟩
            else g
          | none => g) g0).val i
      = g0.val i
        + (ws.map (fun nw =>
            match solver.static_layers nw.1 with
            | some layer => if 0 < nw.2 then nw.2 * layer.val i else 0
            | none => 0)).sum := by
  induction ws with
  | nil => intro g0; simp
  | cons nw rest ih =>
    intro g0
    simp only [List.foldl_cons, List.map_cons, List.sum_cons]
    cases h : solver.static_layers nw.1 with
    | none =>
      rw [ih]
      simp [h]
    | some layer =>
      by_cases hw : nw.2 > 0
      · simp only [h, if_pos hw]
        rw [ih]
        ring
      · simp only [h, if_neg hw]
        rw [ih]
        ring

/-- Claim C3 (amended): the combined candidate-scoring field equals, at a
cell with `hard_mask` clear, the architecture layer plus the weighted sum
of the positively weighted weight-table layers — the architecture layer
is counted a second time through its own table entry of weight 1.0 — plus
the dynamic field of the committed emitters (when any); at a cell with
`hard_mask` set that whole static+dynamic part is replaced by `-10000`;
finally `100*soft_mask` is subtracted (`solver.py:199-243`,
`grid.py:72-75`). -/
theorem combined_field_eq_code_formula (gexp : ℚ → ℚ) (solver : HeatmapSolver)
    (item_type : String) (mask : CollisionMask) (emitters : List FieldEmitter) (i : ℕ) :
    (solver.combined_field gexp item_type mask emitters).val i
      = codeCombinedFieldFormula gexp solver item_type mask emitters i := by
  unfold HeatmapSolver.combined_field codeCombinedFieldFormula GridMap.copy
    GridMap.apply_mask CollisionMask.get_blocking_mask
  dsimp only
  by_cases hh : mask.hard_mask i > 0
  · rw [if_pos hh, if_pos hh]
    ring
  · rw [if_neg hh, if_neg hh]
    by_cases hem : emitters.isEmpty
    · simp only [hem, if_true, ite_true]
      rw [combined_weights_foldl]
      ring
    · simp only [hem, if_false, ite_false, Bool.false_eq_true]
      rw [combined_weights_foldl]
      ring

/-- Claim C7 evidence (code bug): `HeatmapSolver.__init__` builds the
`ergonomics` static layer with the default `item_type='generic'`
(`solver.py:84`, `layers.py:72`), so the ergonomics layer combined into a
monolith's candidate-scoring field is the generic one.  At cell 0 of an
empty 400 cm room (with the `exp` stand-in `gexpOne`), the layer the
solver uses evaluates to `0`, while the monolith variant of
`create_ergonomics_layer` — the `+80` first/last-120cm bonus with the
negative center dip that the claim and the code's own docstring and
`# Edge preference` weight comments describe — evaluates to `50`. -/
theorem ergonomics_layer_generic_divergence :
    (HeatmapSolver.mk_solver gexpOne ⟨400, 300, 260, [], [], [], none⟩ 50 3).static_layers
        "ergonomics"
      = some (create_ergonomics_layer gexpOne ⟨400, 300, 260, [], [], [], none⟩ "generic") ∧
    (create_ergonomics_layer gexpOne ⟨400, 300, 260, [], [], [], none⟩ "generic").val 0 = 0 ∧
    (create_ergonomics_layer gexpOne ⟨400, 300, 260, [], [], [], none⟩ "fridge").val 0 = 50 := by
  refine ⟨?_, ?_, ?_⟩
  · norm_num +decide [HeatmapSolver.mk_solver]
  · norm_num +decide [create_ergonomics_layer, GridMap.add_gaussian, GridMap.gaussian_field,
      GridMap.apply_penalty_range, GridMap.zeros, GridMap.create, gexpOne]
  · norm_num +decide [create_ergonomics_layer, GridMap.add_gaussian, GridMap.gaussian_field,
      GridMap.apply_penalty_range, GridMap.zeros, GridMap.create, gexpOne]

/-- One store extends another without touching its live cells. -/
def StorePreserves (st st' : Store) : Prop :=
  st.next ≤ st'.next ∧ ∀ r, r < st.next → st'.mem r = st.mem r

theorem storePreserves_refl (st : Store) : StorePreserves st st :=
  ⟨le_refl _, fun _ _ => rfl⟩

theorem storePreserves_trans {a b c : Store}
    (h1 : StorePreserves a b) (h2 : StorePreserves b c) : StorePreserves a c :=
  ⟨le_trans h1.1 h2.1, fun r hr => by rw [h2.2 r (lt_of_lt_of_le hr h1.1), h1.2 r hr]⟩

theorem store_update_frame (st : Store) (cr : ℕ) (f : (ℕ → ℚ) → (ℕ → ℚ)) :
    (st.update cr f).next = st.next ∧
    ∀ r, r ≠ cr → (st.update cr f).mem r = st.mem r := by
  refine ⟨rfl, ?_⟩
  intro r hr
  simp [Store.update, hr]

theorem weights_foldl_store_frame (R : LayerRefs) (cr : ℕ) (ws : List (String × ℚ)) :
    ∀ s : Store,
      ((ws.foldl
          (fun s nw =>
            match R.find nw.1 with
            | some lr =>
              if nw.2 > 0 then s.update cr (fun f => fun i => f i + s.mem lr i * nw.2)
              else s
            | none => s) s).next = s.next) ∧
      (∀ r, r ≠ cr →
        (ws.foldl
            (fun s nw =>
              match R.find nw.1 with
              | some lr =>
                if nw.2 > 0 then s.update cr (fun f => fun i => f i + s.mem lr i * nw.2)
                else s
              | none => s) s).mem r = s.mem r) := by
  induction ws with
  | nil => intro s; exact ⟨rfl, fun _ _ => rfl⟩
  | cons nw rest ih =>
    intro s
    simp only [List.foldl_cons]
    cases h : R.find nw.1 with
    | none =>
      simp only [h]
      exact ih s
    | some lr =>
      simp only [h]
      by_cases hw : nw.2 > 0
      · rw [if_pos hw]
        refine ⟨?_, ?_⟩
        · rw [(ih _).1]
          exact (store_update_frame s cr _).1
        · intro r hr
          rw [(ih _).2 r hr]
          exact (store_update_frame s cr _).2 r hr
      · rw [if_neg hw]
        exact ih s

theorem generate_candidates_store_preserves (gexp : ℚ → ℚ)
    (room_width candidates_per_item : ℕ) (R : LayerRefs) (st : Store)
    (item_type : String) (item_width : ℕ) (mask : CollisionMask)
    (emitters : List FieldEmitter) :
    StorePreserves st
      (generate_candidates_store gexp room_width candidates_per_item R st item_type
        item_width mask emitters).2 := by
  unfold generate_candidates_store Store.alloc
  dsimp only
  constructor
  · rw [(store_update_frame _ _ _).1, (store_update_frame _ _ _).1]
    split
    · rw [(weights_foldl_store_frame R st.next _ _).1]
      dsimp only
      omega
    · rw [(store_update_frame _ _ _).1, (weights_foldl_store_frame R st.next _ _).1]
      dsimp only
      omega
  · intro r hr
    have hne : r ≠ st.next := by omega
    rw [(store_update_frame _ _ _).2 r hne, (store_update_frame _ _ _).2 r hne]
    have hfold := (weights_foldl_store_frame R st.next
      (get_layer_weights item_type) ⟨st.next + 1, fun q => if q = st.next then st.mem R.architecture else st.mem q⟩).2 r hne
    split
    · rw [hfold]
      simp [hne]
    · rw [(store_update_frame _ _ _).2 r hne, hfold]
      simp [hne]

theorem foldl_store_preserves {α β : Type} (step : (β × Store) → α → (β × Store))
    (hstep : ∀ acc x, StorePreserves acc.2 (step acc x).2) :
    ∀ (l : List α) (acc : β × Store), StorePreserves acc.2 (l.foldl step acc).2 := by
  intro l
  induction l with
  | nil => intro acc; exact storePreserves_refl _
  | cons x rest ih =>
    intro acc
    rw [List.foldl_cons]
    exact storePreserves_trans (hstep acc x) (ih _)

theorem expand_beam_store_preserves (gexp : ℚ → ℚ)
    (room_width beam_width candidates_per_item : ℕ) (R : LayerRefs)
    (beam : List PartialSolution) (item : WishItem) (st : Store) :
    StorePreserves st
      (expand_beam_store gexp room_width beam_width candidates_per_item R beam item st).2 := by
  unfold expand_beam_store
  dsimp only
  have h := foldl_store_preserves
    (fun (acc : List PartialSolution × Store) (sol : PartialSolution) =>
      let gc := generate_candidates_store gexp room_width candidates_per_item R acc.2
        item.wtype (item.width.getD 60) sol.collision_mask sol.emitters
      (acc.1 ++ gc.1.map (fun cand => HeatmapSolver.child_solution sol cand), gc.2))
    (fun acc sol =>
      generate_candidates_store_preserves gexp room_width candidates_per_item R acc.2
        item.wtype (item.width.getD 60) sol.collision_mask sol.emitters)
    beam ([], st)
  exact h

theorem solve_store_preserves (gexp : ℚ → ℚ)
    (room_width beam_width candidates_per_item : ℕ) (R : LayerRefs)
    (wishlist : List WishItem) (st : Store) :
    StorePreserves st
      (solve_store gexp room_width beam_width candidates_per_item R wishlist st).2 := by
  unfold solve_store
  have h := foldl_store_preserves
    (fun (acc : List PartialSolution × Store) (item : WishItem) =>
      expand_beam_store gexp room_width beam_width candidates_per_item R acc.1 item acc.2)
    (fun acc item =>
      expand_beam_store_preserves gexp room_width beam_width candidates_per_item R
        acc.1 item acc.2)
    (HeatmapSolver.sorted_anchors wishlist)
    ([⟨[], 0, CollisionMask.create room_width, []⟩], st)
  exact h

/-- Claim C9: a whole solve leaves every static-layer array untouched —
in the array-store model of the anchor-placement loop, every cell that
holds one of the solver's precomputed `_static_layers` arrays is equal
before and after the solve; `_generate_candidates` copies the
architecture array (`combined = architecture.copy()`, `grid.py:41-43`)
and mutates only that fresh copy (`solver.py:199-243`). -/
theorem solve_store_static_layers_unchanged (gexp : ℚ → ℚ)
    (room_width beam_width candidates_per_item : ℕ) (R : LayerRefs)
    (wishlist : List WishItem) (st : Store) (hR : R.inStore st) :
    ∀ name r, R.find name = some r →
      ((solve_store gexp room_width beam_width candidates_per_item R wishlist st).2).mem r
        = st.mem r := by
  intro name r hfind
  have hp := solve_store_preserves gexp room_width beam_width candidates_per_item R
    wishlist st
  apply hp.2
  unfold LayerRefs.find at hfind
  obtain ⟨h1, h2, h3, h4, h5, h6⟩ := hR
  split_ifs at hfind <;> (cases hfind; omega)

/-- Witness for C9: a six-cell store holding the six layer references of
a solver over a 10 cm room; the hypothesis that every reference is live
holds and the theorem applies to the architecture layer's cell. -/
theorem solve_store_static_layers_unchanged_witness :
    (LayerRefs.inStore ⟨0, 1, 2, 3, 4, 5⟩ ⟨6, fun _ => fun _ => 0⟩) ∧
    ((solve_store gexpZero 10 50 3 ⟨0, 1, 2, 3, 4, 5⟩ oneFridge
        ⟨6, fun _ => fun _ => 0⟩).2).mem 0 = (⟨6, fun _ => fun _ => 0⟩ : Store).mem 0 :=
  ⟨by constructor <;> simp [LayerRefs.inStore],
    solve_store_static_layers_unchanged gexpZero 10 50 3 ⟨0, 1, 2, 3, 4, 5⟩ oneFridge
      ⟨6, fun _ => fun _ => 0⟩
      (by constructor <;> simp [LayerRefs.inStore]) "architecture" 0 rfl⟩
